import Mathlib

/-!
Shallow embedding of the quant-strategy signal engine and proofs about it.

Conventions used throughout:
* Python floats are modelled by exact rationals (`ℚ`); a float `NaN` is
  modelled by `none : Option ℚ`, and any comparison involving `NaN` is
  `false`, as in Python.
* Code that can raise an exception is modelled in `Except String`; a raised
  exception is `Except.error`.
* A pandas rolling statistic with window `w` is defined at index `i`
  exactly when the window `[i + 1 - w, i]` is complete and free of `NaN`,
  matching the default `min_periods = w`.
* A sample standard deviation (`ddof = 1`) is irrational in general, so it
  is carried as its square (the sum of squared deviations); every use in
  the source is either a test `std == 0` or a comparison
  `(x - mean) / std > t`, and both are decided exactly from the square.
-/

/-- Comparison `a > b` on possibly-NaN values: `false` if either is NaN. -/
def ogt (a b : Option ℚ) : Bool :=
  match a, b with
  | some x, some y => decide (y < x)
  | _, _ => false

/-- Comparison `a < b` on possibly-NaN values: `false` if either is NaN. -/
def olt (a b : Option ℚ) : Bool :=
  match a, b with
  | some x, some y => decide (x < y)
  | _, _ => false

/-- NaN-propagating binary arithmetic on possibly-NaN values. -/
def omap2 (f : ℚ → ℚ → ℚ) : Option ℚ → Option ℚ → Option ℚ
  | some x, some y => some (f x y)
  | _, _ => none

/-- Arithmetic mean of a list (pandas `Series.mean` on a complete window). -/
def mean (l : List ℚ) : ℚ := l.sum / l.length

/-- Sum of squared deviations from the mean.  The pandas sample standard
deviation (`ddof = 1`) of `l` is `√(popSS l / (l.length - 1))`. -/
def popSS (l : List ℚ) : ℚ := (l.map (fun x => (x - mean l) ^ 2)).sum

/-- Embeds the test `series.std() == 0`: the sample standard deviation
(`ddof = 1`) is NaN on fewer than two observations (and `NaN == 0` is
`False`), and on two or more it is zero iff the sum of squared deviations
is zero. -/
def stdIsZero (l : List ℚ) : Bool := decide (2 ≤ l.length) && decide (popSS l = 0)

/-- Sum of products of deviations; the OLS slope of `y` on `x` is
`covSum x y / popSS x`. -/
def covSum (x y : List ℚ) : ℚ :=
  ((x.zip y).map (fun p => (p.1 - mean x) * (p.2 - mean y))).sum

/-- Decides `d > t * √v` for `v > 0`, by sign analysis and squaring
(`√v` itself is irrational in general). -/
def gtSqrt (d t v : ℚ) : Bool :=
  if 0 < t then decide (0 < d) && decide (t ^ 2 * v < d ^ 2)
  else if t = 0 then decide (0 < d)
  else decide (0 ≤ d) || decide (d ^ 2 < t ^ 2 * v)

/-- Python's `round` to an integer: round half to even (banker's rounding). -/
def roundHalfEven (x : ℚ) : ℤ :=
  if x - ⌊x⌋ < 1 / 2 then ⌊x⌋
  else if 1 / 2 < x - ⌊x⌋ then ⌊x⌋ + 1
  else if 2 ∣ ⌊x⌋ then ⌊x⌋ else ⌊x⌋ + 1

/-- Python's `round(x, nd)`: round half to even at `nd` decimal places. -/
def pyRound (nd : ℕ) (x : ℚ) : ℚ := (roundHalfEven (x * 10 ^ nd) : ℚ) / 10 ^ nd

/-- Python negative indexing `l.iloc[-k]` (`k ≥ 1`); out of bounds raises. -/
def ilocNeg (l : List ℚ) (k : ℕ) : Except String ℚ :=
  if 1 ≤ k ∧ k ≤ l.length then
    match l.get? (l.length - k) with
    | some a => .ok a
    | none => .error "IndexError"
  else .error "IndexError"

/-- `ilocNeg` for a possibly-NaN series (a NaN entry is a value, not an error). -/
def ilocNegO (l : List (Option ℚ)) (k : ℕ) : Except String (Option ℚ) :=
  if 1 ≤ k ∧ k ≤ l.length then
    match l.get? (l.length - k) with
    | some a => .ok a
    | none => .error "IndexError"
  else .error "IndexError"

/-- A Python `for` loop that appends one result per element and lets
exceptions propagate. -/
def exceptMap (f : α → Except String β) : List α → Except String (List β)
  | [] => .ok []
  | a :: l => do
    let b ← f a
    let r ← exceptMap f l
    pure (b :: r)

/-- Pandas `series.rolling(w).mean()` over a NaN-free series: defined at
index `i` iff the window of the last `w` points is complete. -/
def rollingMeanQ (w : ℕ) (xs : List ℚ) : List (Option ℚ) :=
  (List.range xs.length).map (fun i =>
    if w ≤ i + 1 then some (mean ((xs.drop (i + 1 - w)).take w)) else none)

/-- The rolling window ending at index `i` of a possibly-NaN series:
`some` of its values iff the window is complete and NaN-free. -/
def owindow (xs : List (Option ℚ)) (w i : ℕ) : Option (List ℚ) :=
  if w ≤ i + 1 then ((xs.drop (i + 1 - w)).take w).mapM id else none

/- ========================================================================
   src/ShortTerm/market_regime.py — MarketRegime
   ======================================================================== -/

/-- The dict returned by `MarketRegime.get_usd_cny_rate`. -/
structure CurrencyInfo where
  current : ℚ
  change_5d : ℚ
  deriving DecidableEq, Repr

/-- The dict returned by `MarketRegime.get_north_money_flow` (the
`recent_5d_avg` key of the success branch duplicates `today` and is not
read anywhere, so it is not carried). -/
structure NorthInfo where
  recent_3d_avg : ℚ
  today : ℚ
  deriving DecidableEq, Repr

/-- The dict returned by `MarketRegime.get_gold_price`; the empty-data
branch returns no `current` key, hence `Option`. -/
structure GoldInfo where
  current : Option ℚ
  change_5d : ℚ
  deriving DecidableEq, Repr

/-- `MarketRegime.get_usd_cny_rate`: the external fetch either raises
(`.error`), finds no `USD/CNY` row (`.ok none`), or yields the sell quote
(`.ok (some q)`); any failure is caught and replaced by the default. -/
def get_usd_cny_rate (fetch : Except String (Option ℚ)) : CurrencyInfo :=
  match fetch with
  | .error _ => { current := 72 / 10, change_5d := 0 }
  | .ok none => { current := 72 / 10, change_5d := 0 }
  | .ok (some q) => { current := q, change_5d := 0 }

/-- `MarketRegime.get_north_money_flow`: the fetch either raises, finds no
northbound rows, or yields today's net purchase total. -/
def get_north_money_flow (fetch : Except String (Option ℚ)) : NorthInfo :=
  match fetch with
  | .error _ => { recent_3d_avg := 0, today := 0 }
  | .ok none => { recent_3d_avg := 0, today := 0 }
  | .ok (some today) => { recent_3d_avg := today, today := today }

/-- `MarketRegime.get_gold_price`: the fetch either raises or yields the
list of close prices (most recent first, as `iloc[0]` is the latest). -/
def get_gold_price (fetch : Except String (List ℚ)) : GoldInfo :=
  match fetch with
  | .error _ => { current := some 550, change_5d := 0 }
  | .ok [] => { current := none, change_5d := 0 }
  | .ok (p :: rest) =>
    if 5 ≤ (p :: rest).length then
      { current := some p,
        change_5d := (p - (p :: rest).getD 4 0) / (p :: rest).getD 4 0 }
    else { current := some p, change_5d := 0 }

inductive Regime where
  | AGGRESSIVE
  | NEUTRAL
  | DEFENSIVE
  deriving DecidableEq, Repr

/-- The currency contribution to the risk score (weight 40%). -/
def currency_risk_score (currency : CurrencyInfo) : ℕ :=
  if currency.change_5d > 2 / 100 then 4
  else if currency.change_5d > 1 / 100 then 2
  else 0

/-- The northbound-flow contribution to the risk score (weight 40%). -/
def north_risk_score (north_money : NorthInfo) : ℕ :=
  if north_money.recent_3d_avg < -50 then 4
  else if north_money.recent_3d_avg < -20 then 2
  else 0

/-- The gold contribution to the risk score (weight 20%). -/
def gold_risk_score (gold : GoldInfo) : ℕ :=
  if gold.change_5d > 2 / 100 then 2 else 0

/-- The regime decision from the risk score (source lines 132-137). -/
def regimeOf (score : ℕ) : Regime :=
  if 6 ≤ score then .DEFENSIVE
  else if 3 ≤ score then .NEUTRAL
  else .AGGRESSIVE

/-- The result of `MarketRegime.get_market_status` (the wall-clock
`timestamp` field is an external effect and is not carried). -/
structure MarketStatus where
  regime : Regime
  score : ℕ
  reasons : List String
  currency : CurrencyInfo
  north_money : NorthInfo
  gold : GoldInfo
  deriving DecidableEq, Repr

/-- The scoring and classification body of `MarketRegime.get_market_status`
(source lines 109-149), as a function of the three fetched factor dicts. -/
def get_market_status (currency : CurrencyInfo) (north_money : NorthInfo)
    (gold : GoldInfo) : MarketStatus :=
  { regime := regimeOf (currency_risk_score currency + north_risk_score north_money
      + gold_risk_score gold)
    score := currency_risk_score currency + north_risk_score north_money
      + gold_risk_score gold
    reasons :=
      (if currency.change_5d > 2 / 100 then ["汇率快速贬值"] else [])
        ++ (if north_money.recent_3d_avg < -50 then ["北向资金大幅流出"] else [])
        ++ (if gold.change_5d > 2 / 100 then ["避险情绪升温"] else [])
    currency := currency
    north_money := north_money
    gold := gold }

/-- `MarketRegime.get_market_status` including the three independent
fetches (source lines 105-107). -/
def get_market_status_fetched (fc : Except String (Option ℚ))
    (fn : Except String (Option ℚ)) (fg : Except String (List ℚ)) : MarketStatus :=
  get_market_status (get_usd_cny_rate fc) (get_north_money_flow fn) (get_gold_price fg)

/-- `MarketRegime.get_position_multiplier`, as a function of the fetched
factor dicts. -/
def get_position_multiplier (currency : CurrencyInfo) (north_money : NorthInfo)
    (gold : GoldInfo) : ℚ :=
  match (get_market_status currency north_money gold).regime with
  | .AGGRESSIVE => 1
  | .NEUTRAL => 7 / 10
  | .DEFENSIVE => 2 / 5

/- ========================================================================
   src/Strategy_Event_ShortTerm/scanner.py — LimitUpScanner
   ======================================================================== -/

/-- One entry of `sector_details` in
`LimitUpScanner.generate_daily_signals` (step 4). -/
structure SectorDetail where
  sector : String
  zt_count : ℕ
  lead_stock : String
  lead_stock_pct : ℚ
  performance_5d : ℚ
  volatility : ℚ
  deriving DecidableEq, Repr

/-- The action of a sector signal: `attention` embeds the source string
`'关注'` and `watch` embeds `'观望'`. -/
inductive SignalAction where
  | attention
  | watch
  deriving DecidableEq, Repr

structure SectorSignal where
  sector : String
  action : SignalAction
  strength : ℚ
  reason : String
  deriving DecidableEq, Repr

/-- The raw strength score of step 5 of
`LimitUpScanner.generate_daily_signals` (source lines 193-197). -/
def strength_score (s : SectorDetail) : ℚ :=
  min ((s.zt_count : ℚ) / 10) 1 * (5 / 10)
    + (if s.lead_stock_pct > 95 / 10 then 1 else 0) * (3 / 10)
    + (if s.performance_5d > 0 then 1 else 0) * (2 / 10)

/-- The signal emitted for one hot sector by step 5 of
`LimitUpScanner.generate_daily_signals` (source lines 199-205). -/
def signalFor (s : SectorDetail) : SectorSignal :=
  { sector := s.sector
    action := if strength_score s ≥ 5 / 10 then .attention else .watch
    strength := pyRound 2 (strength_score s)
    reason := "涨停" ++ toString s.zt_count ++ "家，龙头" ++ s.lead_stock }

/- ========================================================================
   src/LongTerm/optimizer.py and src/Strategy_Value_LongTerm/optimizer.py —
   PortfolioOptimizer.optimize_portfolio
   ======================================================================== -/

/-- The weight column produced by `PortfolioOptimizer.optimize_portfolio`
when SLSQP does not converge or raises: the equal-weight initial guess
`np.ones(n) / n`, passed through the final `round(4)` that is applied to
whichever weight vector is returned.  The converged-solver branch returns
`result.x` from `scipy.optimize.minimize`, an external floating-point
routine outside this embedding. -/
def optimize_portfolio_fallback (n : ℕ) : List ℚ :=
  (List.replicate n ((1 : ℚ) / n)).map (pyRound 4)

/-- The per-asset weight bounds of `optimize_portfolio`
(defaults `min_weight = 0.02`, `max_weight = 0.20`). -/
def weightBoundsOk (n : ℕ) : Prop :=
  ∀ w ∈ optimize_portfolio_fallback n, 2 / 100 ≤ w ∧ w ≤ 20 / 100

/- ========================================================================
   src/Strategy_Value_LongTerm/signal_filter.py — TrendFilter and
   src/Strategy_Value_LongTerm/data_updater.py — TrendAnalyzer
   ======================================================================== -/

/-- One row of the price DataFrame (`high`, `low`, `close` columns). -/
structure Bar where
  high : ℚ
  low : ℚ
  close : ℚ
  deriving DecidableEq, Repr

/-- The slice `df.iloc[i-n:i]` used by `calculate_rsrs` (rows `i-n` to
`i-1`). -/
def rsrsWindow (df : List Bar) (n i : ℕ) : List Bar :=
  (df.drop (i - n)).take n

/-- `scipy.stats.linregress(x, y)` restricted to its slope: it raises on
empty input and when all `x` values are identical with at least two points;
on a single point the slope is `0.0 / 0.0 = NaN`; otherwise the OLS slope. -/
def linregressSlope (x y : List ℚ) : Except String (Option ℚ) :=
  if x.length = 0 then .error "Inputs must not be empty."
  else if 2 ≤ x.length ∧ popSS x = 0 then
    .error "Cannot calculate a linear regression if all x values are identical"
  else if x.length = 1 then .ok none
  else .ok (some (covSum x y / popSS x))

/-- The body of the `calculate_rsrs` loop at index `i` (identical in
`TrendFilter.calculate_rsrs` and `TrendAnalyzer.calculate_rsrs`). -/
def rsrsAt (df : List Bar) (n i : ℕ) : Except String (Option ℚ) :=
  if i < n then .ok none
  else
    let lows := (rsrsWindow df n i).map Bar.low
    let highs := (rsrsWindow df n i).map Bar.high
    if stdIsZero lows || stdIsZero highs then .ok none
    else linregressSlope lows highs

/-- `TrendFilter.calculate_rsrs` / `TrendAnalyzer.calculate_rsrs`: one
appended value per row of the input, exceptions propagating. -/
def calculate_rsrs (df : List Bar) (n : ℕ) : Except String (List (Option ℚ)) :=
  exceptMap (rsrsAt df n) (List.range df.length)

/-- The total value of the loop body at index `i`, for windows of at least
one point (where no exception can occur; see `rsrsAt_eq_ok`). -/
def rsrsAtT (df : List Bar) (n i : ℕ) : Option ℚ :=
  if i < n then none
  else
    let lows := (rsrsWindow df n i).map Bar.low
    let highs := (rsrsWindow df n i).map Bar.high
    if stdIsZero lows || stdIsZero highs then none
    else if n = 1 then none
    else some (covSum lows highs / popSS lows)

/-- The RSRS slope series as a total function (the value of
`calculate_rsrs` whenever `1 ≤ n`). -/
def rsrsSlopes (df : List Bar) (n : ℕ) : List (Option ℚ) :=
  (List.range df.length).map (rsrsAtT df n)

/-- Decides `zscore.iloc[-1] > t` where
`zscore = (rsrs - rsrs.rolling(w).mean()) / rsrs.rolling(w).std()` with
zero standard deviations replaced by NaN, as built in
`TrendFilter.rsrs_signal` and `TrendAnalyzer.calculate_rsrs_zscore`;
a NaN z-score (incomplete window, NaN slope, or zero std) compares `False`.
The std is `√(popSS win / (w - 1))`, compared via `gtSqrt`. -/
def zscoreLastGT (rsrs : List (Option ℚ)) (w : ℕ) (t : ℚ) : Bool :=
  match rsrs.getLast? with
  | none => false
  | some dOpt =>
    match dOpt, owindow rsrs w (rsrs.length - 1) with
    | some d, some win =>
      if popSS win = 0 then false
      else gtSqrt (d - mean win) t (popSS win / ((w : ℚ) - 1))
    | _, _ => false

/-- The inner smoothing loop of `calculate_llt`, carrying `llt[i-1]`. -/
def lltFrom (alpha prev : ℚ) : List ℚ → List ℚ
  | [] => []
  | p :: rest => (alpha * p + (1 - alpha) * prev) :: lltFrom alpha (alpha * p + (1 - alpha) * prev) rest

/-- `TrendFilter.calculate_llt` / `TrendAnalyzer.calculate_llt` on the
close-price series: `llt[0] = price[0]`, `llt[1] = price[1]`,
`llt[i] = alpha * price[i] + (1 - alpha) * llt[i-1]` with
`alpha = 2 / (n + 1)`; fewer than two prices raise an `IndexError`.
(`TrendFilter`'s version also takes an `alpha` argument, but overwrites it
with `2 / (n + 1)` before use.) -/
def calculate_llt (price : List ℚ) (n : ℕ) : Except String (List ℚ) :=
  match price with
  | p0 :: p1 :: rest => .ok (p0 :: p1 :: lltFrom (2 / (n + 1)) p1 rest)
  | _ => .error "IndexError"

/-- The total value of `calculate_llt` on at least two prices. -/
def lltT (price : List ℚ) (n : ℕ) : List ℚ :=
  match price with
  | p0 :: p1 :: rest => p0 :: p1 :: lltFrom (2 / (n + 1)) p1 rest
  | short => short

inductive TrendStatus where
  | STRONG_UP
  | UP
  | NEUTRAL
  | DOWN
  | STRONG_DOWN
  deriving DecidableEq, Repr

/-- `TrendFilter.ma_trend_status` on the close series and its
`ma_{ma_period}` column.  Indexing is in bounds at every call site (the
guards `len(df) < ma_period` and `len(ma_series) < 20` run first, and
`check_buy_signal` has already raised on series shorter than 2). -/
def ma_trend_status (closes : List ℚ) (ma : List (Option ℚ)) (ma_period : ℕ) : TrendStatus :=
  if closes.length < ma_period then .NEUTRAL
  else
    let current_price := closes.getLastD 0
    let ma_value := ma.getLastD none
    if ma.length < 20 then .NEUTRAL
    else
      let ma_slope := omap2 (fun a b => (a - b) / 20) (ma.getLastD none) (ma.getD (ma.length - 20) none)
      if ogt (some current_price) ma_value && ogt ma_slope (some (1 / 1000)) then .STRONG_UP
      else if ogt (some current_price) ma_value && ogt ma_slope (some 0) then .UP
      else if olt (some current_price) ma_value && olt ma_slope (some (-(1 / 1000))) then .STRONG_DOWN
      else if olt (some current_price) ma_value && olt ma_slope (some 0) then .DOWN
      else .NEUTRAL

inductive Status where
  | STRONG_BUY
  | WATCH_LIST
  | WAIT
  | IGNORE
  | INSUFFICIENT_DATA
  deriving DecidableEq, Repr

/-- The final verdict assignment shared by `TrendFilter.check_buy_signal`
(step 7) and `TrendAnalyzer.analyze_stock` (step 6). -/
def finalStatus (is_undervalued : Bool) (trend_signals : ℕ) : Status :=
  if is_undervalued ∧ 2 ≤ trend_signals then .STRONG_BUY
  else if is_undervalued ∧ trend_signals = 1 then .WATCH_LIST
  else if is_undervalued ∧ trend_signals = 0 then .WAIT
  else .IGNORE

/-- The signal dict built by `check_buy_signal` / `analyze_stock`: the
decision-relevant keys (`status`, `value_score`, `trend_score`, and the
`ma_ok` / `rsrs_ok` / `llt_ok` details).  `pe_percentile` is recorded by
`analyze_stock` only (`none` for `check_buy_signal`); the remaining
details (`ma_status` string, rounded z-score, prices) are display-only. -/
structure SignalResult where
  status : Status
  value_score : ℕ
  trend_score : ℚ
  ma_ok : Bool
  rsrs_ok : Bool
  llt_ok : Bool
  pe_percentile : Option ℚ
  deriving DecidableEq, Repr

/-- A result of the value-trend gate: either the short-history dict
`{'status': 'INSUFFICIENT_DATA', 'reason': ...}` or a full signal dict. -/
inductive GateResult where
  | insufficient (days : ℕ)
  | result (r : SignalResult)
  deriving DecidableEq, Repr

/-- The `status` key of a gate result. -/
def GateResult.status : GateResult → Status
  | .insufficient _ => .INSUFFICIENT_DATA
  | .result r => r.status

/-- `TrendFilter.check_buy_signal(df, pe_percentile, ma_period,
rsrs_threshold)`.  Note the source calls `self.rsrs_signal(df)` without
forwarding `rsrs_threshold`, so `rsrs_signal`'s default threshold `1.0`
is what the z-score is compared against; the `rsrs_threshold` parameter
is accepted but never used. -/
def check_buy_signal (df : List Bar) (pe_percentile : ℚ) (ma_period : ℕ)
    (rsrs_threshold : ℚ) : Except String SignalResult := do
  let closes := df.map Bar.close
  let is_undervalued := decide (pe_percentile < 4 / 10)
  let ma := rollingMeanQ ma_period closes
  let rsrs ← calculate_rsrs df 18
  let rsrs_ok := zscoreLastGT rsrs 600 1
  let llt ← calculate_llt closes 10
  let ma_ok := decide (ma_trend_status closes ma ma_period = .STRONG_UP
    ∨ ma_trend_status closes ma ma_period = .UP)
  let llt_ok :=
    if 2 < df.length then
      match closes.getLast?, llt.getLast?, llt.get? (llt.length - 2) with
      | some c, some l1, some l0 => decide (l1 < c) && decide (0 < l1 - l0)
      | _, _, _ => false
    else false
  let trend_signals := ma_ok.toNat + rsrs_ok.toNat + llt_ok.toNat
  pure
    { status := finalStatus is_undervalued trend_signals
      value_score := if is_undervalued then 1 else 0
      trend_score := (trend_signals : ℚ) / 3
      ma_ok := ma_ok
      rsrs_ok := rsrs_ok
      llt_ok := llt_ok
      pe_percentile := none }

/-- `TrendAnalyzer.analyze_stock(df, pe_percentile, ma_period,
rsrs_threshold)`; here `rsrs_threshold` genuinely is the z-score cut-off. -/
def analyze_stock (df : List Bar) (pe_percentile : ℚ) (ma_period : ℕ)
    (rsrs_threshold : ℚ) : Except String GateResult :=
  if df.length < ma_period then .ok (.insufficient df.length)
  else do
    let closes := df.map Bar.close
    let is_undervalued := decide (pe_percentile < 4 / 10)
    let ma := rollingMeanQ ma_period closes
    let current_price ← ilocNeg closes 1
    let ma_value ← ilocNegO ma 1
    let ma_20 ← ilocNegO ma 20
    let ma_slope := omap2 (fun a b => (a - b) / 20) ma_value ma_20
    let ma_ok := ogt (some current_price) ma_value && ogt ma_slope (some 0)
    let rsrs ← calculate_rsrs df 18
    let rsrs_ok := zscoreLastGT rsrs 600 rsrs_threshold
    let llt ← calculate_llt closes 10
    let llt_last ← ilocNeg llt 1
    let llt_prev ← ilocNeg llt 2
    let llt_ok := decide (llt_last < current_price) && decide (llt_prev < llt_last)
    let trend_signals := ma_ok.toNat + rsrs_ok.toNat + llt_ok.toNat
    pure (.result
      { status := finalStatus is_undervalued trend_signals
        value_score := if is_undervalued then 1 else 0
        trend_score := (trend_signals : ℚ) / 3
        ma_ok := ma_ok
        rsrs_ok := rsrs_ok
        llt_ok := llt_ok
        pe_percentile := some (pyRound 2 pe_percentile) })

/-- The defaulted percentile lookup of `TrendFilter.filter_universe`
(source line 363): `pe_percentiles.get(symbol, 1.0)`. -/
def filterUniversePe (pe : Option ℚ) : ℚ := pe.getD 1

/-- The defaulted percentile lookup of `DataUpdater.analyze_all_stocks`
(source line 397): `pe_percentiles.get(symbol, 0.5)`. -/
def analyzeAllPe (pe : Option ℚ) : ℚ := pe.getD (1 / 2)

/-- The per-symbol body of `TrendFilter.filter_universe`: histories
shorter than 250 rows short-circuit to the `INSUFFICIENT_DATA` dict,
otherwise `check_buy_signal` runs with the defaulted percentile and the
default `ma_period = 250`, `rsrs_threshold = 0.7`. -/
def filterOne (df : List Bar) (pe : Option ℚ) : Except String GateResult :=
  if df.length < 250 then .ok (.insufficient df.length)
  else (check_buy_signal df (filterUniversePe pe) 250 (7 / 10)).map .result

/-- The per-symbol body of `DataUpdater.analyze_all_stocks`:
`analyze_stock` with the defaulted percentile and the configured defaults
`ma_period = 250`, `rsrs_threshold = 0.7`. -/
def analyzeOne (df : List Bar) (pe : Option ℚ) : Except String GateResult :=
  analyze_stock df (analyzeAllPe pe) 250 (7 / 10)

/-- The verdict mapping exactly as the specification states it:
`STRONG_BUY` / `WATCH_LIST` / `WAIT` by trend count when the valuation
percentile is below 0.4, `IGNORE` otherwise. -/
def specVerdict (pe : ℚ) (trendCount : ℕ) : Status :=
  if pe < 4 / 10 then
    if 2 ≤ trendCount then .STRONG_BUY
    else if trendCount = 1 then .WATCH_LIST
    else .WAIT
  else .IGNORE

/-- The number of true trend components of a signal result. -/
def SignalResult.trendCount (r : SignalResult) : ℕ :=
  r.ma_ok.toNat + r.rsrs_ok.toNat + r.llt_ok.toNat

/- ========================================================================
   Helper lemmas
   ======================================================================== -/

lemma roundHalfEven_intCast (m : ℤ) : roundHalfEven (m : ℚ) = m := by
  unfold roundHalfEven
  rw [Int.floor_intCast, sub_self]
  norm_num

lemma pyRound_eq_self (nd : ℕ) (x : ℚ) (m : ℤ) (hm : x * 10 ^ nd = m) :
    pyRound nd x = x := by
  unfold pyRound
  rw [hm, roundHalfEven_intCast, ← hm,
    mul_div_cancel_right₀ x (by positivity : ((10 : ℚ)) ^ nd ≠ 0)]

lemma roundHalfEven_ge (m : ℤ) (x : ℚ) (h : (m : ℚ) ≤ x) :
    m ≤ roundHalfEven x := by
  have hf : m ≤ ⌊x⌋ := Int.le_floor.mpr h
  unfold roundHalfEven
  split_ifs <;> omega

lemma roundHalfEven_le (m : ℤ) (x : ℚ) (h : x ≤ (m : ℚ)) :
    roundHalfEven x ≤ m := by
  have hf : ⌊x⌋ ≤ m := by
    have := Int.floor_le_floor h
    rwa [Int.floor_intCast] at this
  have hfx : (⌊x⌋ : ℚ) ≤ x := Int.floor_le x
  unfold roundHalfEven
  split_ifs with h1 h2 h3
  · omega
  · rcases lt_or_eq_of_le hf with hlt | heq
    · omega
    · exfalso
      rw [heq] at h2
      linarith
  · omega
  · have htie : x - ⌊x⌋ = 1 / 2 := le_antisymm (not_lt.mp h2) (not_lt.mp h1)
    rcases lt_or_eq_of_le hf with hlt | heq
    · omega
    · exfalso
      rw [heq] at htie
      have : x = (m : ℚ) + 1 / 2 := by linarith
      linarith

lemma regimeOf_eq_defensive (s : ℕ) : regimeOf s = .DEFENSIVE ↔ 6 ≤ s := by
  unfold regimeOf
  split_ifs with h1 h2 <;> simp_all

lemma regimeOf_eq_neutral (s : ℕ) : regimeOf s = .NEUTRAL ↔ 3 ≤ s ∧ s < 6 := by
  unfold regimeOf
  split_ifs with h1 h2 <;> simp_all <;> omega

lemma regimeOf_eq_aggressive (s : ℕ) : regimeOf s = .AGGRESSIVE ↔ s < 3 := by
  unfold regimeOf
  split_ifs with h1 h2 <;> simp_all <;> omega

lemma currency_risk_score_cases (c : CurrencyInfo) :
    currency_risk_score c = 0 ∨ currency_risk_score c = 2 ∨ currency_risk_score c = 4 := by
  unfold currency_risk_score
  split_ifs <;> simp

lemma north_risk_score_cases (nm : NorthInfo) :
    north_risk_score nm = 0 ∨ north_risk_score nm = 2 ∨ north_risk_score nm = 4 := by
  unfold north_risk_score
  split_ifs <;> simp

lemma gold_risk_score_cases (g : GoldInfo) :
    gold_risk_score g = 0 ∨ gold_risk_score g = 2 := by
  unfold gold_risk_score
  split_ifs <;> simp

/- ========================================================================
   Claim theorems: market regime (C3, C9, C10)
   ======================================================================== -/

/-- The specification's scoring sentence, stated verbatim: +4 / +2 for the
currency change, +4 / +2 for the northbound flow, +2 for gold. -/
def specRiskScore (currencyChange northFlowAvg goldChange : ℚ) : ℕ :=
  (if currencyChange > 2 / 100 then 4 else if currencyChange > 1 / 100 then 2 else 0)
    + (if northFlowAvg < -50 then 4 else if northFlowAvg < -20 then 2 else 0)
    + (if goldChange > 2 / 100 then 2 else 0)

/-- C3: for every macro factor triple the risk score is the specification's
sum (+4/+2 currency, +4/+2 flow, +2 gold), never exceeds 10; the regime is
DEFENSIVE exactly for score ≥ 6, NEUTRAL exactly for 3 ≤ score < 6,
AGGRESSIVE otherwise, with position multiplier 1.0 / 0.7 / 0.4
respectively; and the concrete triple (0.025, -60, 0.01) scores 8,
DEFENSIVE, multiplier 0.4. -/
theorem C3_market_regime_classifier (c : CurrencyInfo) (nm : NorthInfo) (g : GoldInfo) :
    (get_market_status c nm g).score
        = specRiskScore c.change_5d nm.recent_3d_avg g.change_5d
    ∧ (get_market_status c nm g).score ≤ 10
    ∧ ((get_market_status c nm g).regime = .DEFENSIVE
        ↔ 6 ≤ (get_market_status c nm g).score)
    ∧ ((get_market_status c nm g).regime = .NEUTRAL
        ↔ 3 ≤ (get_market_status c nm g).score ∧ (get_market_status c nm g).score < 6)
    ∧ ((get_market_status c nm g).regime = .AGGRESSIVE
        ↔ (get_market_status c nm g).score < 3)
    ∧ (get_position_multiplier c nm g = 1
        ↔ (get_market_status c nm g).regime = .AGGRESSIVE)
    ∧ (get_position_multiplier c nm g = 7 / 10
        ↔ (get_market_status c nm g).regime = .NEUTRAL)
    ∧ (get_position_multiplier c nm g = 2 / 5
        ↔ (get_market_status c nm g).regime = .DEFENSIVE)
    ∧ (get_market_status ⟨72 / 10, 25 / 1000⟩ ⟨-60, -60⟩ ⟨some 550, 1 / 100⟩).score = 8
    ∧ (get_market_status ⟨72 / 10, 25 / 1000⟩ ⟨-60, -60⟩ ⟨some 550, 1 / 100⟩).regime
        = .DEFENSIVE
    ∧ get_position_multiplier ⟨72 / 10, 25 / 1000⟩ ⟨-60, -60⟩ ⟨some 550, 1 / 100⟩ = 2 / 5 := by
  have hscore : (get_market_status c nm g).score
      = currency_risk_score c + north_risk_score nm + gold_risk_score g := rfl
  have hregime : (get_market_status c nm g).regime
      = regimeOf (currency_risk_score c + north_risk_score nm + gold_risk_score g) := rfl
  have hc := currency_risk_score_cases c
  have hn := north_risk_score_cases nm
  have hg := gold_risk_score_cases g
  refine ⟨rfl, ?_, ?_, ?_, ?_, ?_, ?_, ?_,
    by norm_num [get_market_status, currency_risk_score, north_risk_score, gold_risk_score],
    by norm_num [get_market_status, currency_risk_score, north_risk_score, gold_risk_score,
      regimeOf],
    by norm_num [get_position_multiplier, get_market_status, currency_risk_score,
      north_risk_score, gold_risk_score, regimeOf]⟩
  · rw [hscore]; omega
  · rw [hscore, hregime]; exact regimeOf_eq_defensive _
  · rw [hscore, hregime]; exact regimeOf_eq_neutral _
  · rw [hscore, hregime]; exact regimeOf_eq_aggressive _
  · unfold get_position_multiplier
    cases hr : (get_market_status c nm g).regime <;> simp [hr] <;> norm_num
  · unfold get_position_multiplier
    cases hr : (get_market_status c nm g).regime <;> simp [hr] <;> norm_num
  · unfold get_position_multiplier
    cases hr : (get_market_status c nm g).regime <;> simp [hr] <;> norm_num

/-- C10: the risk score is the sum of a currency component in {0, 2, 4}, a
flow component in {0, 2, 4} and a gold component in {0, 2}; it is always an
even number in {0, 2, 4, 6, 8, 10}. -/
theorem C10_risk_score_even (c : CurrencyInfo) (nm : NorthInfo) (g : GoldInfo) :
    (currency_risk_score c = 0 ∨ currency_risk_score c = 2 ∨ currency_risk_score c = 4)
    ∧ (north_risk_score nm = 0 ∨ north_risk_score nm = 2 ∨ north_risk_score nm = 4)
    ∧ (gold_risk_score g = 0 ∨ gold_risk_score g = 2)
    ∧ (get_market_status c nm g).score
        = currency_risk_score c + north_risk_score nm + gold_risk_score g
    ∧ ((get_market_status c nm g).score = 0 ∨ (get_market_status c nm g).score = 2
        ∨ (get_market_status c nm g).score = 4 ∨ (get_market_status c nm g).score = 6
        ∨ (get_market_status c nm g).score = 8 ∨ (get_market_status c nm g).score = 10)
    ∧ 2 ∣ (get_market_status c nm g).score := by
  have hc := currency_risk_score_cases c
  have hn := north_risk_score_cases nm
  have hg := gold_risk_score_cases g
  have hscore : (get_market_status c nm g).score
      = currency_risk_score c + north_risk_score nm + gold_risk_score g := rfl
  refine ⟨hc, hn, hg, hscore, ?_, ?_⟩ <;> rw [hscore] <;> omega

/-- C9: every failing macro-factor fetch is replaced by the documented
neutral default (currency 7.2 with 0 change, flow 0, gold 550 with 0
change), and `get_market_status` on three failing fetches returns the
normal all-defaults result (score 0, AGGRESSIVE) instead of propagating the
failure. -/
theorem C9_fetch_failure_defaults (e1 e2 e3 : String) :
    get_usd_cny_rate (.error e1) = ⟨72 / 10, 0⟩
    ∧ get_north_money_flow (.error e2) = ⟨0, 0⟩
    ∧ get_gold_price (.error e3) = ⟨some 550, 0⟩
    ∧ get_market_status_fetched (.error e1) (.error e2) (.error e3)
        = get_market_status ⟨72 / 10, 0⟩ ⟨0, 0⟩ ⟨some 550, 0⟩
    ∧ (get_market_status_fetched (.error e1) (.error e2) (.error e3)).score = 0
    ∧ (get_market_status_fetched (.error e1) (.error e2) (.error e3)).regime
        = .AGGRESSIVE := by
  have h : get_market_status_fetched (.error e1) (.error e2) (.error e3)
      = get_market_status ⟨72 / 10, 0⟩ ⟨0, 0⟩ ⟨some 550, 0⟩ := rfl
  refine ⟨rfl, rfl, rfl, rfl, ?_, ?_⟩ <;> rw [h] <;>
    norm_num [get_market_status, currency_risk_score, north_risk_score,
      gold_risk_score, regimeOf]

/- ========================================================================
   Claim theorems: scanner (C4)
   ======================================================================== -/

lemma strength_score_times_hundred (s : SectorDetail) :
    ∃ m : ℤ, strength_score s * 10 ^ 2 = m := by
  unfold strength_score
  rcases le_total ((s.zt_count : ℚ) / 10) 1 with h | h
  · rw [min_eq_left h]
    split_ifs
    · exact ⟨5 * s.zt_count + 30 + 20, by push_cast; ring⟩
    · exact ⟨5 * s.zt_count + 30, by push_cast; ring⟩
    · exact ⟨5 * s.zt_count + 20, by push_cast; ring⟩
    · exact ⟨5 * s.zt_count, by push_cast; ring⟩
  · rw [min_eq_right h]
    split_ifs
    · exact ⟨100, by push_cast; ring⟩
    · exact ⟨80, by push_cast; ring⟩
    · exact ⟨70, by push_cast; ring⟩
    · exact ⟨50, by push_cast; ring⟩

lemma strength_score_nonneg (s : SectorDetail) : 0 ≤ strength_score s := by
  have hmin : (0 : ℚ) ≤ min ((s.zt_count : ℚ) / 10) 1 :=
    le_min (by positivity) (by norm_num)
  unfold strength_score
  split_ifs <;> linarith

lemma strength_score_le_one (s : SectorDetail) : strength_score s ≤ 1 := by
  have hmin : min ((s.zt_count : ℚ) / 10) 1 ≤ 1 := min_le_right _ _
  unfold strength_score
  split_ifs <;> linarith

/-- C4: for every hot sector the emitted signal strength equals
`0.5 * min(eventCount / 10, 1) + 0.3 * [leadStockPct > 9.5] +
0.2 * [performance5d > 0]` (the `round(2)` is the identity on these
values), the strength lies in `[0, 1]`, the action is `attention` exactly
when the strength is at least 0.5, and the concrete detail with
eventCount 10, leadStockPct 10.0, performance5d 0.05 gets strength 1.0 and
action `attention`. -/
theorem C4_sector_signal_strength (s : SectorDetail) :
    (signalFor s).strength
        = (5 / 10) * min ((s.zt_count : ℚ) / 10) 1
          + (3 / 10) * (if s.lead_stock_pct > 95 / 10 then 1 else 0)
          + (2 / 10) * (if s.performance_5d > 0 then 1 else 0)
    ∧ 0 ≤ (signalFor s).strength
    ∧ (signalFor s).strength ≤ 1
    ∧ ((signalFor s).action = .attention ↔ 5 / 10 ≤ strength_score s)
    ∧ (signalFor ⟨"AI", 10, "龙头", 10, 1 / 20, 0⟩).strength = 1
    ∧ (signalFor ⟨"AI", 10, "龙头", 10, 1 / 20, 0⟩).action = .attention := by
  obtain ⟨m, hm⟩ := strength_score_times_hundred s
  have hround : (signalFor s).strength = strength_score s := by
    show pyRound 2 (strength_score s) = strength_score s
    exact pyRound_eq_self 2 _ m hm
  refine ⟨?_, ?_, ?_, ?_, ?_, ?_⟩
  · rw [hround]; unfold strength_score; ring
  · rw [hround]; exact strength_score_nonneg s
  · rw [hround]; exact strength_score_le_one s
  · show (if strength_score s ≥ 5 / 10 then SignalAction.attention else .watch)
        = .attention ↔ 5 / 10 ≤ strength_score s
    split_ifs with h
    · simp [ge_iff_le.mp h]
    · simp [h]
  · show pyRound 2 (strength_score ⟨"AI", 10, "龙头", 10, 1 / 20, 0⟩) = 1
    norm_num [strength_score, pyRound, roundHalfEven]
  · show (if strength_score ⟨"AI", 10, "龙头", 10, 1 / 20, 0⟩ ≥ 5 / 10
        then SignalAction.attention else .watch) = .attention
    rw [if_pos (by norm_num [strength_score])]

/- ========================================================================
   Claim theorems: optimizer (C2)
   ======================================================================== -/

/-- C2 counterexample: with 2 assets the (rounded) equal-weight fallback is
`[0.5, 0.5]`, and `0.5` violates the upper bound `w_max = 0.20`; with
6 assets the rounded fallback sums to `1.0002`, which misses `Σw = 1` by
more than the claimed tolerance `1e-6`. -/
theorem C2_counterexample :
    optimize_portfolio_fallback 2 = [1 / 2, 1 / 2]
    ∧ ¬ ((1 : ℚ) / 2 ≤ 20 / 100)
    ∧ (optimize_portfolio_fallback 6).sum = 10002 / 10000
    ∧ ¬ |(10002 : ℚ) / 10000 - 1| ≤ 1 / 1000000 := by
  refine ⟨?_, by norm_num, ?_, ?_⟩
  · norm_num [optimize_portfolio_fallback, pyRound, roundHalfEven, List.replicate]
  · norm_num [optimize_portfolio_fallback, pyRound, roundHalfEven, List.replicate]
  · rw [abs_of_nonneg (by norm_num)]
    norm_num

/-- C2 (amended): for `n ≥ 2` assets the fallback path of
`optimize_portfolio` returns `n` copies of `round(1/n, 4)`; its sum is
`n * round(1/n, 4)` (which can miss 1 by more than `1e-6`, e.g. `1.0002`
at `n = 6`), and it satisfies the per-asset bounds
`0.02 ≤ w ≤ 0.20` exactly when `5 ≤ n ≤ 50`. -/
theorem C2_fallback_weights (n : ℕ) (h : 2 ≤ n) :
    optimize_portfolio_fallback n = List.replicate n (pyRound 4 (1 / (n : ℚ)))
    ∧ (optimize_portfolio_fallback n).sum = n * pyRound 4 (1 / (n : ℚ))
    ∧ (weightBoundsOk n ↔ 5 ≤ n ∧ n ≤ 50) := by
  have hn0 : (0 : ℚ) < (n : ℚ) := by
    have : 0 < n := by omega
    exact_mod_cast this
  have hmap : optimize_portfolio_fallback n
      = List.replicate n (pyRound 4 (1 / (n : ℚ))) := by
    unfold optimize_portfolio_fallback
    rw [List.map_replicate]
  have hsum : (optimize_portfolio_fallback n).sum = n * pyRound 4 (1 / (n : ℚ)) := by
    rw [hmap, List.sum_replicate, nsmul_eq_mul]
  have hmem : ∀ w, w ∈ optimize_portfolio_fallback n ↔ w = pyRound 4 (1 / (n : ℚ)) := by
    intro w
    rw [hmap, List.mem_replicate]
    simp [show n ≠ 0 by omega]
  have hwb : weightBoundsOk n
      ↔ (2 / 100 ≤ pyRound 4 (1 / (n : ℚ)) ∧ pyRound 4 (1 / (n : ℚ)) ≤ 20 / 100) := by
    unfold weightBoundsOk
    constructor
    · intro hb
      exact hb _ ((hmem _).mpr rfl)
    · intro hb w hw
      rw [(hmem w).mp hw]
      exact hb
  refine ⟨hmap, hsum, hwb.trans ⟨?_, ?_⟩⟩
  · rintro ⟨hlo, hhi⟩
    constructor
    · by_contra hlt
      have h4 : n ≤ 4 := by omega
      interval_cases n <;> norm_num [pyRound, roundHalfEven] at hhi
    · by_contra hgt
      have h51 : (51 : ℚ) ≤ (n : ℚ) := by exact_mod_cast (by omega : 51 ≤ n)
      have hr : roundHalfEven (1 / (n : ℚ) * 10 ^ 4) ≤ 197 := by
        apply roundHalfEven_le
        rw [div_mul_eq_mul_div, one_mul, div_le_iff hn0]
        push_cast
        nlinarith
      have hp : pyRound 4 (1 / (n : ℚ)) ≤ 197 / 10 ^ 4 := by
        unfold pyRound
        gcongr
        exact_mod_cast hr
      have : (2 : ℚ) / 100 ≤ 197 / 10 ^ 4 := le_trans hlo hp
      norm_num at this
  · rintro ⟨h5, h50⟩
    have h5q : (5 : ℚ) ≤ (n : ℚ) := by exact_mod_cast h5
    have h50q : (n : ℚ) ≤ 50 := by exact_mod_cast h50
    constructor
    · have hr : (200 : ℤ) ≤ roundHalfEven (1 / (n : ℚ) * 10 ^ 4) := by
        apply roundHalfEven_ge
        rw [div_mul_eq_mul_div, one_mul, le_div_iff hn0]
        push_cast
        nlinarith
      have hp : (200 : ℚ) / 10 ^ 4 ≤ pyRound 4 (1 / (n : ℚ)) := by
        unfold pyRound
        gcongr
        exact_mod_cast hr
      linarith [hp]
    · have hr : roundHalfEven (1 / (n : ℚ) * 10 ^ 4) ≤ 2000 := by
        apply roundHalfEven_le
        rw [div_mul_eq_mul_div, one_mul, div_le_iff hn0]
        push_cast
        nlinarith
      have hp : pyRound 4 (1 / (n : ℚ)) ≤ (2000 : ℚ) / 10 ^ 4 := by
        unfold pyRound
        gcongr
        exact_mod_cast hr
      linarith [hp]

/-- Witness for `C2_fallback_weights` at `n = 6`. -/
theorem C2_fallback_weights_witness :
    2 ≤ 6
    ∧ (optimize_portfolio_fallback 6 = List.replicate 6 (pyRound 4 (1 / ((6 : ℕ) : ℚ)))
      ∧ (optimize_portfolio_fallback 6).sum = ((6 : ℕ) : ℚ) * pyRound 4 (1 / ((6 : ℕ) : ℚ))
      ∧ (weightBoundsOk 6 ↔ 5 ≤ 6 ∧ 6 ≤ 50)) :=
  ⟨by norm_num, C2_fallback_weights 6 (by norm_num)⟩

/- ========================================================================
   Lemmas for the RSRS series (C7)
   ======================================================================== -/

lemma except_bind_ok (a : α) (f : α → Except String β) :
    (Except.ok a >>= f : Except String β) = f a := rfl

lemma except_pure_eq (a : α) : (pure a : Except String α) = .ok a := rfl

lemma exceptMap_ok (f : α → Except String β) (g : α → β) :
    ∀ l : List α, (∀ a ∈ l, f a = .ok (g a)) → exceptMap f l = .ok (l.map g) := by
  intro l
  induction l with
  | nil => intro _; rfl
  | cons a l ih =>
    intro h
    show (do
      let b ← f a
      let r ← exceptMap f l
      pure (b :: r) : Except String (List β)) = _
    rw [h a (List.mem_cons_self a l), except_bind_ok,
      ih (fun b hb => h b (List.mem_cons_of_mem a hb)), except_bind_ok]
    rfl

lemma rsrsWindow_length (df : List Bar) (n i : ℕ) (hi : i < df.length) (hn : n ≤ i) :
    (rsrsWindow df n i).length = n := by
  unfold rsrsWindow
  rw [List.length_take, List.length_drop]
  omega

lemma rsrsAt_eq_ok (df : List Bar) (n i : ℕ) (hn : 1 ≤ n) (hi : i < df.length) :
    rsrsAt df n i = .ok (rsrsAtT df n i) := by
  unfold rsrsAt rsrsAtT
  by_cases hin : i < n
  · rw [if_pos hin, if_pos hin]
  · rw [if_neg hin, if_neg hin]
    have hlow : ((rsrsWindow df n i).map Bar.low).length = n := by
      rw [List.length_map]
      exact rsrsWindow_length df n i hi (by omega)
    by_cases hstd : (stdIsZero ((rsrsWindow df n i).map Bar.low)
        || stdIsZero ((rsrsWindow df n i).map Bar.high)) = true
    · rw [if_pos hstd, if_pos hstd]
    · rw [if_neg hstd, if_neg hstd]
      have hlowz : ¬ (2 ≤ ((rsrsWindow df n i).map Bar.low).length
          ∧ popSS ((rsrsWindow df n i).map Bar.low) = 0) := by
        intro ⟨ha, hb⟩
        apply hstd
        have : stdIsZero ((rsrsWindow df n i).map Bar.low) = true := by
          unfold stdIsZero
          rw [List.length_map] at ha
          simp [ha, hb]
        simp [this]
      unfold linregressSlope
      rw [if_neg (by omega : ¬ ((rsrsWindow df n i).map Bar.low).length = 0),
        if_neg (by rw [hlow] at hlowz ⊢; exact hlowz)]
      by_cases h1 : n = 1
      · rw [if_pos (by rw [hlow, h1]), if_pos h1]
      · rw [if_neg (by rw [hlow]; exact h1), if_neg h1]

lemma calculate_rsrs_eq_ok (df : List Bar) (n : ℕ) (hn : 1 ≤ n) :
    calculate_rsrs df n = .ok (rsrsSlopes df n) := by
  unfold calculate_rsrs rsrsSlopes
  exact exceptMap_ok _ _ _
    (fun i hi => rsrsAt_eq_ok df n i hn (List.mem_range.mp hi))

lemma rsrsSlopes_length (df : List Bar) (n : ℕ) :
    (rsrsSlopes df n).length = df.length := by
  simp [rsrsSlopes]

lemma rsrsSlopes_get? (df : List Bar) (n i : ℕ) (hi : i < df.length) :
    (rsrsSlopes df n).get? i = some (rsrsAtT df n i) := by
  unfold rsrsSlopes
  rw [List.get?_map, List.get?_range hi]
  rfl

/-- C7: for every input table and every (nonempty) regression window `n`,
`calculate_rsrs` returns — without raising — a series of exactly the
input's length whose first `n` entries are NaN, and whose entry at any
position is NaN whenever the rolling sample standard deviation of the lows
or of the highs over that position's window is zero. -/
theorem C7_calculate_rsrs_shape (df : List Bar) (n : ℕ) (hn : 1 ≤ n) :
    ∃ out, calculate_rsrs df n = .ok out
      ∧ out.length = df.length
      ∧ (∀ i, i < n → i < df.length → out.get? i = some none)
      ∧ (∀ i, n ≤ i → i < df.length →
          (stdIsZero ((rsrsWindow df n i).map Bar.low) = true
            ∨ stdIsZero ((rsrsWindow df n i).map Bar.high) = true) →
          out.get? i = some none) := by
  refine ⟨rsrsSlopes df n, calculate_rsrs_eq_ok df n hn, rsrsSlopes_length df n, ?_, ?_⟩
  · intro i hin hilen
    rw [rsrsSlopes_get? df n i hilen]
    unfold rsrsAtT
    rw [if_pos hin]
  · intro i hni hilen hstd
    rw [rsrsSlopes_get? df n i hilen]
    unfold rsrsAtT
    rw [if_neg (by omega)]
    have hor : (stdIsZero ((rsrsWindow df n i).map Bar.low)
        || stdIsZero ((rsrsWindow df n i).map Bar.high)) = true := by
      rcases hstd with h | h <;> simp [h]
    rw [if_pos hor]

/-- A three-row table used to instantiate theorems about the gate. -/
def tinyDf : List Bar := [⟨2, 1, 1⟩, ⟨3, 2, 2⟩, ⟨4, 3, 3⟩]

/-- Witness for `C7_calculate_rsrs_shape` on a three-row table with
window 2. -/
theorem C7_calculate_rsrs_shape_witness :
    1 ≤ 2
    ∧ (∃ out, calculate_rsrs tinyDf 2 = .ok out
      ∧ out.length = tinyDf.length
      ∧ (∀ i, i < 2 → i < tinyDf.length → out.get? i = some none)
      ∧ (∀ i, 2 ≤ i → i < tinyDf.length →
          (stdIsZero ((rsrsWindow tinyDf 2 i).map Bar.low) = true
            ∨ stdIsZero ((rsrsWindow tinyDf 2 i).map Bar.high) = true) →
          out.get? i = some none)) :=
  ⟨by decide, C7_calculate_rsrs_shape tinyDf 2 (by decide)⟩

/- ========================================================================
   Lemmas for the LLT series (C8)
   ======================================================================== -/

/-- The specification's LLT recurrence, read off index by index:
`LLT[0] = price[0]`, `LLT[1] = price[1]`,
`LLT[t] = alpha * price[t] + (1 - alpha) * LLT[t-1]` for `t ≥ 2`
(undefined outside the series). -/
def lltRecFun (alpha : ℚ) (price : List ℚ) : ℕ → Option ℚ
  | 0 => price.get? 0
  | 1 => price.get? 1
  | (i + 2) =>
    match price.get? (i + 2), lltRecFun alpha price (i + 1) with
    | some p, some prev => some (alpha * p + (1 - alpha) * prev)
    | _, _ => none

lemma lltFrom_length (alpha prev : ℚ) :
    ∀ l : List ℚ, (lltFrom alpha prev l).length = l.length := by
  intro l
  induction l generalizing prev with
  | nil => rfl
  | cons p l ih => simp [lltFrom, ih]

lemma lltFrom_zero (alpha prev : ℚ) (l : List ℚ) :
    (lltFrom alpha prev l).get? 0
      = (l.get? 0).map (fun p => alpha * p + (1 - alpha) * prev) := by
  cases l <;> simp [lltFrom]

lemma lltFrom_succ (alpha prev p : ℚ) (l : List ℚ) (i : ℕ) :
    (lltFrom alpha prev (p :: l)).get? (i + 1)
      = (lltFrom alpha (alpha * p + (1 - alpha) * prev) l).get? i := by
  simp [lltFrom]

lemma lltFrom_step (alpha : ℚ) :
    ∀ (l : List ℚ) (prev : ℚ) (i : ℕ),
      (lltFrom alpha prev l).get? (i + 1)
        = match l.get? (i + 1), (lltFrom alpha prev l).get? i with
          | some p, some q => some (alpha * p + (1 - alpha) * q)
          | _, _ => none := by
  intro l
  induction l with
  | nil => intro prev i; simp [lltFrom]
  | cons p l ih =>
    intro prev i
    cases i with
    | zero =>
      rw [lltFrom_succ, lltFrom_zero]
      have h0 : (lltFrom alpha prev (p :: l)).get? 0 = some (alpha * p + (1 - alpha) * prev) := by
        simp [lltFrom]
      rw [h0, List.get?_cons_succ]
      cases l.get? 0 <;> rfl
    | succ i =>
      rw [lltFrom_succ, ih, lltFrom_succ]
      rfl

lemma llt_build_get? (alpha p0 p1 : ℚ) (rest : List ℚ) :
    ∀ i, (p0 :: p1 :: lltFrom alpha p1 rest).get? i
      = lltRecFun alpha (p0 :: p1 :: rest) i := by
  intro i
  induction i using Nat.strong_induction_on with
  | _ i ih =>
    match i with
    | 0 => rfl
    | 1 => rfl
    | (k + 2) =>
      cases k with
      | zero =>
        show (lltFrom alpha p1 rest).get? 0 = _
        rw [lltFrom_zero]
        show _ = (match rest.get? 0, lltRecFun alpha (p0 :: p1 :: rest) 1 with
          | some p, some prev => some (alpha * p + (1 - alpha) * prev)
          | _, _ => none)
        have h1 : lltRecFun alpha (p0 :: p1 :: rest) 1 = some p1 := rfl
        rw [h1]
        cases rest.get? 0 <;> rfl
      | succ k =>
        show (lltFrom alpha p1 rest).get? (k + 1) = _
        rw [lltFrom_step]
        have ihk : (p0 :: p1 :: lltFrom alpha p1 rest).get? (k + 2)
            = lltRecFun alpha (p0 :: p1 :: rest) (k + 2) := ih (k + 2) (by omega)
        have hprev : (lltFrom alpha p1 rest).get? k
            = lltRecFun alpha (p0 :: p1 :: rest) (k + 2) := ihk
        rw [hprev]
        show _ = (match rest.get? (k + 1), lltRecFun alpha (p0 :: p1 :: rest) (k + 2) with
          | some p, some prev => some (alpha * p + (1 - alpha) * prev)
          | _, _ => none)
        rfl

lemma calculate_llt_eq_ok (price : List ℚ) (n : ℕ) (h2 : 2 ≤ price.length) :
    calculate_llt price n = .ok (lltT price n) := by
  match price, h2 with
  | p0 :: p1 :: rest, _ => rfl

lemma lltT_length (price : List ℚ) (n : ℕ) :
    (lltT price n).length = price.length := by
  match price with
  | [] => rfl
  | [p0] => rfl
  | p0 :: p1 :: rest => simp [lltT, lltFrom_length]

/-- C8: for every price series of length at least 2 and every smoothing
parameter `n`, `calculate_llt` returns — without raising — exactly the
series given by the specification's recurrence with `alpha = 2 / (n + 1)`:
`LLT[0] = price[0]`, `LLT[1] = price[1]`,
`LLT[t] = alpha * price[t] + (1 - alpha) * LLT[t-1]`. -/
theorem C8_calculate_llt_recurrence (price : List ℚ) (n : ℕ) (h2 : 2 ≤ price.length) :
    ∃ out, calculate_llt price n = .ok out
      ∧ out.length = price.length
      ∧ ∀ i, out.get? i = lltRecFun (2 / ((n : ℚ) + 1)) price i := by
  refine ⟨lltT price n, calculate_llt_eq_ok price n h2, lltT_length price n, ?_⟩
  match price, h2 with
  | p0 :: p1 :: rest, _ =>
    intro i
    exact llt_build_get? (2 / ((n : ℚ) + 1)) p0 p1 rest i

/-- Witness for `C8_calculate_llt_recurrence` on the three-point series
`[1, 2, 4]` with the default `n = 10`. -/
theorem C8_calculate_llt_recurrence_witness :
    2 ≤ ([1, 2, 4] : List ℚ).length
    ∧ (∃ out, calculate_llt [1, 2, 4] 10 = .ok out
      ∧ out.length = ([1, 2, 4] : List ℚ).length
      ∧ ∀ i, out.get? i = lltRecFun (2 / (((10 : ℕ) : ℚ) + 1)) [1, 2, 4] i) :=
  ⟨by decide, C8_calculate_llt_recurrence [1, 2, 4] 10 (by decide)⟩

/- ========================================================================
   Run lemmas for the two gates (C1, C5, C6)
   ======================================================================== -/

lemma rollingMeanQ_length (w : ℕ) (xs : List ℚ) :
    (rollingMeanQ w xs).length = xs.length := by
  simp [rollingMeanQ]

lemma ilocNeg_eq_ok (l : List ℚ) (k : ℕ) (h1 : 1 ≤ k) (h2 : k ≤ l.length) :
    ilocNeg l k = .ok ((l.get? (l.length - k)).getD 0) := by
  unfold ilocNeg
  rw [if_pos ⟨h1, h2⟩]
  cases hg : l.get? (l.length - k) with
  | none =>
    exfalso
    rw [List.get?_eq_none] at hg
    omega
  | some a => rfl

lemma ilocNegO_eq_ok (l : List (Option ℚ)) (k : ℕ) (h1 : 1 ≤ k) (h2 : k ≤ l.length) :
    ilocNegO l k = .ok ((l.get? (l.length - k)).getD none) := by
  unfold ilocNegO
  rw [if_pos ⟨h1, h2⟩]
  cases hg : l.get? (l.length - k) with
  | none =>
    exfalso
    rw [List.get?_eq_none] at hg
    omega
  | some a => rfl

/-- The MA component of `analyze_stock` (price above the last MA value and
20-bar MA slope positive), as computed on a sufficiently long history. -/
def maOkA (df : List Bar) (maP : ℕ) : Bool :=
  ogt (some (((df.map Bar.close).get? ((df.map Bar.close).length - 1)).getD 0))
      (((rollingMeanQ maP (df.map Bar.close)).get?
        ((rollingMeanQ maP (df.map Bar.close)).length - 1)).getD none)
    && ogt (omap2 (fun a b => (a - b) / 20)
        (((rollingMeanQ maP (df.map Bar.close)).get?
          ((rollingMeanQ maP (df.map Bar.close)).length - 1)).getD none)
        (((rollingMeanQ maP (df.map Bar.close)).get?
          ((rollingMeanQ maP (df.map Bar.close)).length - 20)).getD none))
      (some 0)

/-- The RSRS component: last z-score above the threshold `t`. -/
def rsrsOkA (df : List Bar) (t : ℚ) : Bool :=
  zscoreLastGT (rsrsSlopes df 18) 600 t

/-- The LLT component of `analyze_stock` (price above the last LLT value
and LLT rising), as computed on a sufficiently long history. -/
def lltOkA (df : List Bar) : Bool :=
  decide ((((lltT (df.map Bar.close) 10).get?
      ((lltT (df.map Bar.close) 10).length - 1)).getD 0)
    < (((df.map Bar.close).get? ((df.map Bar.close).length - 1)).getD 0))
  && decide ((((lltT (df.map Bar.close) 10).get?
      ((lltT (df.map Bar.close) 10).length - 2)).getD 0)
    < (((lltT (df.map Bar.close) 10).get?
      ((lltT (df.map Bar.close) 10).length - 1)).getD 0))

/-- The trend count of `analyze_stock`. -/
def trendCountA (df : List Bar) (maP : ℕ) (t : ℚ) : ℕ :=
  (maOkA df maP).toNat + (rsrsOkA df t).toNat + (lltOkA df).toNat

lemma analyze_stock_run (df : List Bar) (pe t : ℚ) (maP : ℕ)
    (hma : ¬ df.length < maP) (h20 : 20 ≤ df.length) :
    analyze_stock df pe maP t
      = .ok (.result
          { status := finalStatus (decide (pe < 4 / 10)) (trendCountA df maP t)
            value_score := if decide (pe < 4 / 10) then 1 else 0
            trend_score := (trendCountA df maP t : ℚ) / 3
            ma_ok := maOkA df maP
            rsrs_ok := rsrsOkA df t
            llt_ok := lltOkA df
            pe_percentile := some (pyRound 2 pe) }) := by
  have hcl : (df.map Bar.close).length = df.length := List.length_map _ _
  have hml : (rollingMeanQ maP (df.map Bar.close)).length = df.length := by
    rw [rollingMeanQ_length, hcl]
  have hll : (lltT (df.map Bar.close) 10).length = df.length := by
    rw [lltT_length, hcl]
  have e1 : ilocNeg (df.map Bar.close) 1
      = .ok (((df.map Bar.close).get? ((df.map Bar.close).length - 1)).getD 0) :=
    ilocNeg_eq_ok _ 1 (by norm_num) (by omega)
  have e2 : ilocNegO (rollingMeanQ maP (df.map Bar.close)) 1
      = .ok (((rollingMeanQ maP (df.map Bar.close)).get?
          ((rollingMeanQ maP (df.map Bar.close)).length - 1)).getD none) :=
    ilocNegO_eq_ok _ 1 (by norm_num) (by omega)
  have e3 : ilocNegO (rollingMeanQ maP (df.map Bar.close)) 20
      = .ok (((rollingMeanQ maP (df.map Bar.close)).get?
          ((rollingMeanQ maP (df.map Bar.close)).length - 20)).getD none) :=
    ilocNegO_eq_ok _ 20 (by norm_num) (by omega)
  have e4 : calculate_rsrs df 18 = .ok (rsrsSlopes df 18) :=
    calculate_rsrs_eq_ok df 18 (by norm_num)
  have e5 : calculate_llt (df.map Bar.close) 10 = .ok (lltT (df.map Bar.close) 10) :=
    calculate_llt_eq_ok _ 10 (by omega)
  have e6 : ilocNeg (lltT (df.map Bar.close) 10) 1
      = .ok (((lltT (df.map Bar.close) 10).get?
          ((lltT (df.map Bar.close) 10).length - 1)).getD 0) :=
    ilocNeg_eq_ok _ 1 (by norm_num) (by omega)
  have e7 : ilocNeg (lltT (df.map Bar.close) 10) 2
      = .ok (((lltT (df.map Bar.close) 10).get?
          ((lltT (df.map Bar.close) 10).length - 2)).getD 0) :=
    ilocNeg_eq_ok _ 2 (by norm_num) (by omega)
  unfold analyze_stock
  rw [if_neg hma]
  simp only [e1, e2, e3, e4, e5, e6, e7, except_bind_ok, except_pure_eq]
  rfl

/-- The MA component of `check_buy_signal`: the MA trend status is
STRONG_UP or UP. -/
def maOkC (df : List Bar) (maP : ℕ) : Bool :=
  decide (ma_trend_status (df.map Bar.close) (rollingMeanQ maP (df.map Bar.close)) maP
      = .STRONG_UP
    ∨ ma_trend_status (df.map Bar.close) (rollingMeanQ maP (df.map Bar.close)) maP
      = .UP)

/-- The LLT component of `check_buy_signal`:
`llt_filter(df, llt).iloc[-1]` on histories longer than 2, else `False`. -/
def lltOkC (df : List Bar) : Bool :=
  if 2 < df.length then
    match (df.map Bar.close).getLast?, (lltT (df.map Bar.close) 10).getLast?,
      (lltT (df.map Bar.close) 10).get? ((lltT (df.map Bar.close) 10).length - 2) with
    | some c, some l1, some l0 => decide (l1 < c) && decide (0 < l1 - l0)
    | _, _, _ => false
  else false

/-- The trend count of `check_buy_signal`; its z-score threshold is the
un-forwarded `rsrs_signal` default `1.0`. -/
def trendCountC (df : List Bar) (maP : ℕ) : ℕ :=
  (maOkC df maP).toNat + (rsrsOkA df 1).toNat + (lltOkC df).toNat

lemma check_buy_signal_run (df : List Bar) (pe t : ℚ) (maP : ℕ) (h2 : 2 ≤ df.length) :
    check_buy_signal df pe maP t
      = .ok { status := finalStatus (decide (pe < 4 / 10)) (trendCountC df maP)
              value_score := if decide (pe < 4 / 10) then 1 else 0
              trend_score := (trendCountC df maP : ℚ) / 3
              ma_ok := maOkC df maP
              rsrs_ok := rsrsOkA df 1
              llt_ok := lltOkC df
              pe_percentile := none } := by
  have e4 : calculate_rsrs df 18 = .ok (rsrsSlopes df 18) :=
    calculate_rsrs_eq_ok df 18 (by norm_num)
  have e5 : calculate_llt (df.map Bar.close) 10 = .ok (lltT (df.map Bar.close) 10) :=
    calculate_llt_eq_ok _ 10 (by rw [List.length_map]; exact h2)
  unfold check_buy_signal
  simp only [e4, e5, except_bind_ok, except_pure_eq]
  rfl

lemma finalStatus_eq_specVerdict (pe : ℚ) (b1 b2 b3 : Bool) :
    finalStatus (decide (pe < 4 / 10)) (b1.toNat + b2.toNat + b3.toNat)
      = specVerdict pe (b1.toNat + b2.toNat + b3.toNat) := by
  by_cases hpe : pe < 4 / 10 <;> cases b1 <;> cases b2 <;> cases b3 <;>
    simp [finalStatus, specVerdict, hpe]

/- ========================================================================
   Claim theorems: the value-trend gate (C1, C5, C6)
   ======================================================================== -/

/-- C1: for every price history and externally supplied percentile `p`, the
gate's verdict is `specVerdict`: STRONG_BUY for `p < 0.4` with at least two
true trend components, WATCH_LIST with exactly one, WAIT with none, IGNORE
whenever `p ≥ 0.4`; and on histories shorter than the required length the
gate returns — without raising — the `INSUFFICIENT_DATA` result.  Proved
for both implementations: `TrendAnalyzer.analyze_stock` and
`TrendFilter.filter_universe` / `check_buy_signal`. -/
theorem C1_value_trend_gate (df : List Bar) (p : ℚ) :
    (df.length < 250 →
      analyze_stock df p 250 (7 / 10) = .ok (.insufficient df.length)
      ∧ (GateResult.insufficient df.length).status = .INSUFFICIENT_DATA
      ∧ filterOne df (some p) = .ok (.insufficient df.length))
    ∧ (250 ≤ df.length →
      ∃ r₁ r₂ : SignalResult,
        analyze_stock df p 250 (7 / 10) = .ok (.result r₁)
        ∧ r₁.status = specVerdict p r₁.trendCount
        ∧ filterOne df (some p) = .ok (.result r₂)
        ∧ r₂.status = specVerdict p r₂.trendCount) := by
  constructor
  · intro hlt
    refine ⟨?_, rfl, ?_⟩
    · unfold analyze_stock
      rw [if_pos hlt]
    · unfold filterOne
      rw [if_pos hlt]
  · intro hge
    have hA := analyze_stock_run df p (7 / 10) 250 (by omega) (by omega)
    have hC := check_buy_signal_run df (filterUniversePe (some p)) (7 / 10) 250 (by omega)
    have hF : filterOne df (some p) = .ok (.result
        { status := finalStatus (decide (filterUniversePe (some p) < 4 / 10))
            (trendCountC df 250)
          value_score := if decide (filterUniversePe (some p) < 4 / 10) then 1 else 0
          trend_score := (trendCountC df 250 : ℚ) / 3
          ma_ok := maOkC df 250
          rsrs_ok := rsrsOkA df 1
          llt_ok := lltOkC df
          pe_percentile := none }) := by
      unfold filterOne
      rw [if_neg (by omega), hC]
      rfl
    exact ⟨_, _, hA,
      finalStatus_eq_specVerdict p (maOkA df 250) (rsrsOkA df (7 / 10)) (lltOkA df),
      hF,
      finalStatus_eq_specVerdict p (maOkC df 250) (rsrsOkA df 1) (lltOkC df)⟩

/-- A 250-row constant-price history used to instantiate the gate
theorems. -/
def sampleDf : List Bar := List.replicate 250 ⟨102, 98, 100⟩

lemma sampleDf_length : sampleDf.length = 250 := by
  unfold sampleDf
  exact List.length_replicate 250 _

/-- Witness for `C1_value_trend_gate` on a 250-row history with
percentile 0.3. -/
theorem C1_value_trend_gate_witness :
    250 ≤ sampleDf.length
    ∧ (∃ r₁ r₂ : SignalResult,
        analyze_stock sampleDf (3 / 10) 250 (7 / 10) = .ok (.result r₁)
        ∧ r₁.status = specVerdict (3 / 10) r₁.trendCount
        ∧ filterOne sampleDf (some (3 / 10)) = .ok (.result r₂)
        ∧ r₂.status = specVerdict (3 / 10) r₂.trendCount) :=
  ⟨le_of_eq sampleDf_length.symm,
   (C1_value_trend_gate sampleDf (3 / 10)).2 (le_of_eq sampleDf_length.symm)⟩

lemma check_pe_same (df : List Bar) (maP : ℕ) (t p q : ℚ)
    (hp : ¬ p < 4 / 10) (hq : ¬ q < 4 / 10) :
    check_buy_signal df p maP t = check_buy_signal df q maP t := by
  unfold check_buy_signal
  rw [show decide (p < 4 / 10) = decide (q < 4 / 10) by simp [hp, hq]]

/-- C5 counterexample: `TrendFilter.filter_universe` substitutes 1.0, not
0.5, for a symbol absent from the percentile map. -/
theorem C5_counterexample : filterUniversePe none = 1 ∧ ((1 : ℚ) ≠ 1 / 2) :=
  ⟨rfl, by norm_num⟩

/-- C5 (amended): `analyze_all_stocks` substitutes the default 0.5 for an
absent percentile, but `filter_universe` substitutes 1.0 ("not cheap");
in both gates, because either default is on the `≥ 0.4` side of the value
threshold, the result for an absent symbol is identical to the result with
an explicit percentile of 0.5. -/
theorem C5_absent_percentile_default (df : List Bar) :
    filterUniversePe none = 1
    ∧ analyzeAllPe none = 1 / 2
    ∧ filterOne df none = filterOne df (some (1 / 2))
    ∧ analyzeOne df none = analyzeOne df (some (1 / 2)) := by
  refine ⟨rfl, rfl, ?_, rfl⟩
  unfold filterOne
  by_cases h : df.length < 250
  · rw [if_pos h, if_pos h]
  · rw [if_neg h, if_neg h]
    have hsame : check_buy_signal df (filterUniversePe none) 250 (7 / 10)
        = check_buy_signal df (filterUniversePe (some (1 / 2))) 250 (7 / 10) :=
      check_pe_same df 250 (7 / 10) _ _
        (by norm_num [filterUniversePe, Option.getD])
        (by norm_num [filterUniversePe, Option.getD])
    rw [hsame]

/-- C6: `TrendAnalyzer.analyze_stock` compares the last RSRS z-score
against its configured `rsrs_threshold` (default 0.7), but
`TrendFilter.check_buy_signal` ignores its `rsrs_threshold` parameter
entirely — its result is the same for any two thresholds, because the
internal `rsrs_signal` call falls back to that function's own default
threshold `1.0`. -/
theorem C6_rsrs_threshold_wiring (df : List Bar) (pe t1 t2 : ℚ) (maP : ℕ) :
    check_buy_signal df pe maP t1 = check_buy_signal df pe maP t2
    ∧ (∀ t : ℚ, 250 ≤ df.length →
        ∃ r : SignalResult, analyze_stock df pe 250 t = .ok (.result r)
          ∧ r.rsrs_ok = zscoreLastGT (rsrsSlopes df 18) 600 t) := by
  refine ⟨rfl, ?_⟩
  intro t h
  exact ⟨_, analyze_stock_run df pe t 250 (by omega) (by omega), rfl⟩

/-- Witness for `C6_rsrs_threshold_wiring` on a 250-row history. -/
theorem C6_rsrs_threshold_wiring_witness :
    check_buy_signal sampleDf (3 / 10) 250 (7 / 10) = check_buy_signal sampleDf (3 / 10) 250 1
    ∧ 250 ≤ sampleDf.length
    ∧ (∃ r : SignalResult, analyze_stock sampleDf (3 / 10) 250 (7 / 10) = .ok (.result r)
        ∧ r.rsrs_ok = zscoreLastGT (rsrsSlopes sampleDf 18) 600 (7 / 10)) :=
  ⟨(C6_rsrs_threshold_wiring sampleDf (3 / 10) (7 / 10) 1 250).1,
   le_of_eq sampleDf_length.symm,
   (C6_rsrs_threshold_wiring sampleDf (3 / 10) (7 / 10) 1 250).2 (7 / 10)
     (le_of_eq sampleDf_length.symm)⟩
